import Mathlib

/-!
Shallow embedding of the DIMSE engine of `ris-dicom-connector`
(package `pkg/dimse`: `client.go`, `echo.go`, `find.go`, `pool.go`).

Bytes are modelled as `List Nat` (each entry a byte value).  Go's
`net.Conn` stream is modelled by the list of bytes currently available
to `Read`: one call to `conn.Read(buf)` delivers `min(len(buf), avail)`
bytes without error when at least one byte is available, and blocks
until the deadline (an error) when none is.  Transport writes and the
final transport close are modelled as succeeding; each write is recorded
in a trace of wire operations.
-/

namespace RisDicom

abbrev Bytes := List Nat

/-- Big-endian 2-byte encoding, as Go's `byte(n>>8), byte(n)`. -/
def be16 (n : Nat) : Bytes := [(n / 256) % 256, n % 256]

/-- Big-endian 4-byte encoding, as Go's `byte(n>>24) .. byte(n)`. -/
def be32 (n : Nat) : Bytes :=
  [(n / 16777216) % 256, (n / 65536) % 256, (n / 256) % 256, n % 256]

/-- The bytes of a Go string (all strings in the source are ASCII). -/
def strBytes (s : String) : Bytes := s.data.map Char.toNat

/-- `client.go padAET`: pad/truncate an AE title to 16 bytes with spaces. -/
def padAET (aet : String) : Bytes :=
  let b := strBytes aet
  b.take 16 ++ List.replicate (16 - b.length) 32

/-- `client.go buildApplicationContext`. -/
def buildApplicationContext : Bytes :=
  let uid := strBytes "1.2.840.10008.3.1.1.1"
  [0x10, 0x00] ++ be16 uid.length ++ uid

/-- The three transfer syntax UIDs offered by `buildPresentationContext`,
in the source's order: Implicit VR LE, Explicit VR LE, Explicit VR BE. -/
def transferSyntaxList : List String :=
  ["1.2.840.10008.1.2", "1.2.840.10008.1.2.1", "1.2.840.10008.1.2.2"]

/-- `client.go buildPresentationContext`: one Presentation Context item
(item type 0x20) holding the context id, one Abstract Syntax sub-item
(0x30) for `sopClass`, and one Transfer Syntax sub-item (0x40) per
offered transfer syntax. -/
def buildPresentationContext (id : Nat) (sopClass : String) : Bytes :=
  let sop := strBytes sopClass
  let body := [id % 256, 0x00, 0x00, 0x00]
    ++ ([0x30, 0x00] ++ be16 sop.length ++ sop)
    ++ (transferSyntaxList.map (fun ts =>
          let t := strBytes ts
          [0x40, 0x00] ++ be16 t.length ++ t)).flatten
  [0x20, 0x00] ++ be16 body.length ++ body

/-- `client.go`: the SOP class UIDs proposed by `buildPresentationContexts`. -/
def sopClasses : List String :=
  [ "1.2.840.10008.5.1.4.1.2.1.1",
    "1.2.840.10008.5.1.4.1.2.1.2",
    "1.2.840.10008.5.1.4.1.2.1.3",
    "1.2.840.10008.5.1.4.1.2.2.1",
    "1.2.840.10008.5.1.4.1.2.2.2",
    "1.2.840.10008.5.1.4.1.2.2.3",
    "1.2.840.10008.1.1" ]

/-- `client.go buildPresentationContexts`: one item per SOP class, with
context ids 1, 3, 5, ... (`presentationContextID += 2` per iteration). -/
def buildPresentationContexts : Bytes :=
  (sopClasses.enum.map (fun p => buildPresentationContext (1 + 2 * p.1) p.2)).flatten

/-- `client.go buildUserInformation`. -/
def buildUserInformation (maxPDULength : Nat) : Bytes :=
  let maxLen := [0x51, 0x00, 0x00, 0x04] ++ be32 maxPDULength
  let implUID := strBytes "1.2.826.0.1.3680043.9.7433.1.1"
  let implClass := [0x52, 0x00] ++ be16 implUID.length ++ implUID
  let implV := strBytes "DICOM_CONNECTOR_V1"
  let implVer := [0x55, 0x00] ++ be16 implV.length ++ implV
  let body := maxLen ++ implClass ++ implVer
  [0x50, 0x00] ++ be16 body.length ++ body

/-- `client.go buildAssociateRequestPDU`: assembles the A-ASSOCIATE-RQ and
then overwrites bytes 2..5 with the big-endian value `len(pdu)-6` (the Go
code writes the length over the protocol-version/reserved bytes). -/
def buildAssociateRequestPDU (callingAET calledAET : String) (maxPDULength : Nat) : Bytes :=
  let pdu := [0x01, 0x00] ++ [0x00, 0x01] ++ [0x00, 0x00]
    ++ padAET calledAET ++ padAET callingAET ++ List.replicate 32 0
    ++ buildApplicationContext ++ buildPresentationContexts
    ++ buildUserInformation maxPDULength
  pdu.take 2 ++ be32 (pdu.length - 6) ++ pdu.drop 6

/-! ### A reference parser for PDU variable items

Used to state what the built ASSOCIATE-RQ bytes actually contain.  Each
variable item is `[type, reserved, lenHi, lenLo] ++ payload`. The parser
is fuel-indexed so that it is structurally recursive and evaluates by
kernel reduction. -/

/-- Parse a run of variable items `(itemType, payload)`. -/
def parseItemsF : Nat → Bytes → Option (List (Nat × Bytes))
  | _, [] => some []
  | 0, _ :: _ => none
  | fuel + 1, t :: _ :: hi :: lo :: rest =>
    let len := hi * 256 + lo
    if rest.length < len then none
    else
      match parseItemsF fuel (rest.drop len) with
      | some its => some ((t, rest.take len) :: its)
      | none => none
  | _ + 1, _ => none

def parseItems (b : Bytes) : Option (List (Nat × Bytes)) := parseItemsF b.length b

/-- A decoded Presentation Context item: the context id and the payloads
of its Abstract Syntax (0x30) and Transfer Syntax (0x40) sub-items. -/
structure PCItem where
  id : Nat
  abstractUids : List Bytes
  transferUids : List Bytes
deriving DecidableEq, Repr

/-- Decode one variable item as a Presentation Context item. -/
def parsePCItem (t : Nat) (payload : Bytes) : Option PCItem :=
  match payload with
  | id :: _ :: _ :: _ :: rest =>
    if t ≠ 0x20 then none
    else
      match parseItems rest with
      | some subs =>
        some { id := id
               abstractUids := (subs.filter (fun p => p.1 == 0x30)).map (·.2)
               transferUids := (subs.filter (fun p => p.1 == 0x40)).map (·.2) }
      | none => none
  | _ => none

/-- Decode a run of variable items as Presentation Context items. -/
def parsePresentationContexts (b : Bytes) : Option (List PCItem) :=
  match parseItems b with
  | some items => items.mapM (fun p => parsePCItem p.1 p.2)
  | none => none

/-! ### Transport reads (`conn.Read`) and the receive paths -/

/-- One Go `conn.Read(buf)` with `len(buf) = bufLen` against a stream on
which `avail` bytes are available before the next read would block:
delivers `min(bufLen, avail.length)` bytes without error when a byte is
available (a short read), and times out (`none`) when none is and the
buffer is non-empty.  Returns the bytes delivered and the bytes left. -/
def connRead (avail : Bytes) (bufLen : Nat) : Option (Bytes × Bytes) :=
  if avail.isEmpty && bufLen != 0 then none
  else some (avail.take bufLen, avail.drop bufLen)

/-- The contents of a Go buffer `make([]byte, bufLen)` after a `Read`
delivered `got`: the delivered bytes, then untouched zeros.  The source
ignores the returned byte count, so the whole buffer is what it uses. -/
def fillBuf (bufLen : Nat) (got : Bytes) : Bytes :=
  got ++ List.replicate (bufLen - got.length) 0

/-- `echo.go receiveCommand` / `client.go receiveAssociateResponse`:
the PDU body length taken from header bytes 2..5, big-endian. -/
def pduLength (header : Bytes) : Nat :=
  header.getD 2 0 * 16777216 + header.getD 3 0 * 65536
    + header.getD 4 0 * 256 + header.getD 5 0

/-- `echo.go receiveCommand`: read a 6-byte header with one `Read`, take
the claimed body length from it, read the body with one `Read` into a
buffer of that length, and return the whole buffer (the byte count
returned by `Read` is ignored).  Result: `none` on a read error,
otherwise the returned data buffer and the bytes still unread. -/
def receiveCommand (avail : Bytes) : Option (Bytes × Bytes) :=
  match connRead avail 6 with
  | none => none
  | some (h, rest) =>
    let header := fillBuf 6 h
    let length := pduLength header
    match connRead rest length with
    | none => none
    | some (d, rest2) => some (fillBuf length d, rest2)

inductive RecvACResult where
  | ok
  | errUnexpectedPDUType (t : Nat)
  | errRead
deriving DecidableEq, Repr

/-- `client.go receiveAssociateResponse`: read a 6-byte header, require
type byte 0x02 (A-ASSOCIATE-AC), read the claimed body length, and
return success — the body, its presentation contexts included, is never
parsed ("Simplified - in production, parse all presentation contexts"). -/
def receiveAssociateResponse (avail : Bytes) : RecvACResult :=
  match connRead avail 6 with
  | none => .errRead
  | some (h, rest) =>
    let header := fillBuf 6 h
    if header.getD 0 0 != 0x02 then .errUnexpectedPDUType (header.getD 0 0)
    else
      match connRead rest (pduLength header) with
      | none => .errRead
      | some _ => .ok

/-! ### DIMSE operations: C-ECHO (`echo.go`) and C-FIND (`find.go`)

The transport connect and the write of the request are modelled as
succeeding; `connectOk` stands for the outcome of the implicit
`Connect` that `CEcho`/`CFind` perform when `IsConnected()` is false. -/

/-- `echo.go getCommandStatus`: the source leaves command-set parsing
unimplemented ("TODO: Parse DICOM command dataset and extract (0000,0900)
Status; For now, return success") and returns 0x0000 for every response. -/
def getCommandStatus (response : Bytes) : Nat := 0x0000

/-- `echo.go buildCEchoRequest`: the stubbed C-ECHO-RQ bytes. -/
def buildCEchoRequest : Bytes := [0x04, 0x00, 0x00, 0x00]

/-- `find.go parseDICOMDataset`: stub, returns an empty attribute map. -/
def parseDICOMDataset (data : Bytes) : List (String × String) := []

inductive EchoOutcome where
  | connectFailed
  | recvFailed
  | dimseFailed (status : Nat)
  | ok
deriving DecidableEq, Repr

/-- `echo.go CEcho` on an association whose connection flag is
`isConnected`, with the peer's bytes `avail` available to read: connect
implicitly when not connected (failing with Connect's error when that
fails), send the request, receive one response, and fail iff
`getCommandStatus` of it is non-zero. -/
def cEcho (isConnected connectOk : Bool) (avail : Bytes) : EchoOutcome :=
  if !isConnected && !connectOk then .connectFailed
  else
    match receiveCommand avail with
    | none => .recvFailed
    | some (rsp, _) =>
      let status := getCommandStatus rsp
      if status != 0x0000 then .dimseFailed status else .ok

inductive CFindOutcome where
  | connectFailed
  | recvFailed
  | dimseFailed (status : Nat)
  | ok (status : Nat) (results : List (List (String × String)))
  | fuelExhausted
deriving DecidableEq, Repr

/-- The receive loop of `find.go CFind`: receive a response, read its
status with `getCommandStatus`; on 0xFF00 append `parseDICOMDataset` of
the response and continue, on 0x0000 stop successfully, otherwise fail
with that status.  `fuel` only bounds the recursion; every iteration
consumes input, so `avail.length + 1` is always enough. -/
def cFindLoop : Nat → Bytes → List (List (String × String)) → CFindOutcome
  | 0, _, _ => .fuelExhausted
  | fuel + 1, avail, acc =>
    match receiveCommand avail with
    | none => .recvFailed
    | some (rsp, rest) =>
      let status := getCommandStatus rsp
      if status == 0xFF00 then cFindLoop fuel rest (acc ++ [parseDICOMDataset rsp])
      else if status == 0x0000 then .ok status acc
      else .dimseFailed status

/-- `find.go CFind`: implicit connect as in `cEcho`, then the receive loop. -/
def cFind (isConnected connectOk : Bool) (avail : Bytes) : CFindOutcome :=
  if !isConnected && !connectOk then .connectFailed
  else cFindLoop (avail.length + 1) avail []

/-! ### Association close (`client.go Close`, `sendReleaseRequest`) -/

inductive WireOp where
  | write (pdu : Bytes)
  | closeTransport
deriving DecidableEq, Repr

/-- `client.go sendReleaseRequest`: the fixed A-RELEASE-RQ PDU. -/
def releaseRQPDU : Bytes :=
  [0x05, 0x00, 0x00, 0x00, 0x00, 0x04, 0x00, 0x00, 0x00, 0x00]

/-- An A-ABORT PDU (type byte 0x07); the source never builds one. -/
def abortPDU : Bytes :=
  [0x07, 0x00, 0x00, 0x00, 0x00, 0x04, 0x00, 0x00, 0x00, 0x00]

/-- Association connection flag; whenever `Connect` has set it true the
transport `conn` is non-nil, so the flag alone determines `Close`. -/
structure AssocState where
  isConnected : Bool
deriving DecidableEq, Repr

/-- `client.go Close`: a no-op returning nil when not connected;
otherwise write the A-RELEASE-RQ (any write error is only logged), clear
the flag and close the transport.  Returns the new state, the wire
operations performed, and the returned error (transport close modelled
as succeeding).  `Close` never reads from the transport. -/
def close (a : AssocState) : AssocState × List WireOp × Option Unit :=
  if !a.isConnected then (a, [], none)
  else ({ isConnected := false }, [.write releaseRQPDU, .closeTransport], none)

/-- `client.go Connect`, from the point where the TCP dial succeeded and
`isConnected` was set: sends the A-ASSOCIATE-RQ, then succeeds iff
`receiveAssociateResponse` does (true = Connect returns nil and the
association is left connected, i.e. treated as Established). -/
def connectAfterDial (avail : Bytes) : Bool :=
  match receiveAssociateResponse avail with
  | .ok => true
  | _ => false

/-! ### Connection pool (`pool.go`) -/

/-- A pooled association as the pool observes it: an identity, its
`IsConnected()` flag, and its `GetLastUsed()` timestamp. -/
structure PoolAssoc where
  id : Nat
  connected : Bool
  lastUsed : Nat
deriving DecidableEq, Repr

structure PoolState where
  maxSize : Nat
  connections : List PoolAssoc
deriving DecidableEq, Repr

inductive GetResult where
  | reused (a : PoolAssoc)
  | created (a : PoolAssoc)
  | connectFailed
  | exhausted
deriving DecidableEq, Repr

/-- The scan in `pool.go Get`: the first connected entry, removed from
the list (`append(connections[:i], connections[i+1:]...)`). -/
def getLoop : List PoolAssoc → Option (PoolAssoc × List PoolAssoc)
  | [] => none
  | c :: rest =>
    if c.connected then some (c, rest)
    else
      match getLoop rest with
      | some pr => some (pr.1, c :: pr.2)
      | none => none

/-- `pool.go Get`: hand out the first idle connected association,
removing it from the idle list; otherwise, if the idle list has fewer
than `maxSize` entries, create and connect a fresh association (`fresh`
is the new association, `connectOk` its `Connect` outcome; on failure
the pool is unchanged and the error returned); otherwise fail with
"connection pool exhausted". -/
def poolGet (p : PoolState) (fresh : PoolAssoc) (connectOk : Bool) :
    GetResult × PoolState :=
  match getLoop p.connections with
  | some (c, rest) => (.reused c, { p with connections := rest })
  | none =>
    if p.connections.length < p.maxSize then
      if connectOk then (.created fresh, p) else (.connectFailed, p)
    else (.exhausted, p)

/-- `pool.go Put`: close (drop) a disconnected association; close one
that would overflow `maxSize`; otherwise append it to the idle list. -/
def poolPut (p : PoolState) (c : PoolAssoc) : PoolState :=
  if !c.connected then p
  else if p.maxSize ≤ p.connections.length then p
  else { p with connections := p.connections ++ [c] }

/-- `pool.go removeIdleConnections`: keep exactly the entries that are
within the idle deadline and connected; the rest are closed and dropped. -/
def removeIdleConnections (p : PoolState) (now maxIdleTime : Nat) : PoolState :=
  { p with connections :=
      p.connections.filter (fun c =>
        decide (now - c.lastUsed ≤ maxIdleTime) && c.connected) }

/-- `pool.go Close`: closes every idle association and empties the list. -/
def poolClose (p : PoolState) : PoolState := { p with connections := [] }

/-! ### Concrete DIMSE response streams

`specCommandStatusF` below is the only definition not taken from the
source: the source's `getCommandStatus` leaves status extraction
unimplemented, so the intended reading of a response's status field is
modelled from the spec. -/

/-- Modelled from the spec: the source's `getCommandStatus` leaves DIMSE
command-set parsing unimplemented; per the spec (§4.4) a command set is
Implicit VR Little Endian — tag (2+2 bytes LE), length (4 bytes LE),
value — and the status is the uint16 LE value of element (0000,0900).
This scans the elements for that tag. -/
def specCommandStatusF : Nat → Bytes → Option Nat
  | 0, _ => none
  | fuel + 1, g0 :: g1 :: e0 :: e1 :: l0 :: l1 :: l2 :: l3 :: rest =>
    let len := l0 + 256 * l1 + 65536 * l2 + 16777216 * l3
    if g0 == 0x00 && g1 == 0x00 && e0 == 0x00 && e1 == 0x09 then
      match rest.take len with
      | v0 :: v1 :: _ => some (v0 + 256 * v1)
      | _ => none
    else specCommandStatusF fuel (rest.drop len)
  | _ + 1, _ => none

def specCommandStatus (b : Bytes) : Option Nat := specCommandStatusF b.length b

/-- An Implicit VR LE element (0000,0900) Status carrying `status`. -/
def dimseStatusElement (status : Nat) : Bytes :=
  [0x00, 0x00, 0x00, 0x09, 0x02, 0x00, 0x00, 0x00, status % 256, (status / 256) % 256]

/-- A P-DATA-TF PDU (type 0x04) framing `body`. -/
def pDataPDU (body : Bytes) : Bytes := [0x04, 0x00] ++ be32 body.length ++ body

/-- Result dataset A: Implicit VR LE element (0010,0010) = "A ". -/
def datasetA : Bytes := [0x10, 0x00, 0x10, 0x00, 0x02, 0x00, 0x00, 0x00, 0x41, 0x20]

/-- Result dataset B: Implicit VR LE element (0010,0010) = "B ". -/
def datasetB : Bytes := [0x10, 0x00, 0x10, 0x00, 0x02, 0x00, 0x00, 0x00, 0x42, 0x20]

/-- C-FIND-RSP with pending status 0xFF00 and result dataset A attached. -/
def findPendingRspA : Bytes := dimseStatusElement 0xFF00 ++ datasetA

/-- C-FIND-RSP with pending status 0xFF00 and result dataset B attached. -/
def findPendingRspB : Bytes := dimseStatusElement 0xFF00 ++ datasetB

/-- Final C-FIND-RSP with success status 0x0000. -/
def findDoneRsp : Bytes := dimseStatusElement 0x0000

/-- The wire bytes of the spec's Find scenario: RSP(0xFF00, A),
RSP(0xFF00, B), RSP(0x0000), each framed as one P-DATA-TF PDU. -/
def findScenarioStream : Bytes :=
  pDataPDU findPendingRspA ++ pDataPDU findPendingRspB ++ pDataPDU findDoneRsp

/-- A C-ECHO-RSP whose (0000,0900) Status is 0x0110 (failure). -/
def echoFailureRsp : Bytes := dimseStatusElement 0x0110

/-- The wire bytes of a failed C-ECHO exchange: one P-DATA-TF PDU whose
command set carries status 0x0110. -/
def echoFailureStream : Bytes := pDataPDU echoFailureRsp

/-- The body of an A-ASSOCIATE-AC that accepts zero presentation
contexts: protocol version, reserved, the two AE titles, 32 reserved
bytes, and only an Application Context item — no 0x20 items at all. -/
def acBodyNoContexts : Bytes :=
  [0x00, 0x01, 0x00, 0x00] ++ padAET "ORTHANC" ++ padAET "DICOM_CONNECTOR"
    ++ List.replicate 32 0 ++ buildApplicationContext

/-- That body framed as an A-ASSOCIATE-AC PDU (type 0x02). -/
def acPDUNoContexts : Bytes :=
  [0x02, 0x00] ++ be32 acBodyNoContexts.length ++ acBodyNoContexts

/-! ## Helper lemmas about the pool's idle-scan -/

/-- The scan of `pool.go Get` finds nothing iff no idle entry is connected. -/
theorem getLoop_eq_none (l : List PoolAssoc) :
    getLoop l = none ↔ ∀ c ∈ l, c.connected = false := by
  induction l with
  | nil => simp [getLoop]
  | cons a as ih =>
    by_cases ha : a.connected
    · simp [getLoop, ha]
    · cases hr : getLoop as with
      | none =>
        simp [getLoop, ha, hr, Bool.of_not_eq_true ha]
        exact ih.mp hr
      | some pr =>
        simp [getLoop, ha, hr]
        by_contra hno
        push_neg at hno
        simp only [Bool.not_eq_true] at hno
        exact absurd (ih.mpr hno) (by simp [hr])

/-- When the scan of `pool.go Get` hands out an entry, that entry came
from the idle list, the idle list shrank by one, and (when the list has
no duplicates) the handed-out entry is no longer in it. -/
theorem getLoop_spec (l : List PoolAssoc) (c : PoolAssoc) (rest : List PoolAssoc)
    (h : getLoop l = some (c, rest)) :
    c ∈ l ∧ rest.length + 1 = l.length ∧ (l.Nodup → c ∉ rest) := by
  induction l generalizing c rest with
  | nil => simp [getLoop] at h
  | cons a as ih =>
    by_cases ha : a.connected
    · simp [getLoop, ha] at h
      obtain ⟨rfl, rfl⟩ := h
      exact ⟨List.mem_cons_self a as, by simp, fun hnd => (List.nodup_cons.mp hnd).1⟩
    · simp [getLoop, ha] at h
      cases hr : getLoop as with
      | none => rw [hr] at h; simp at h
      | some pr =>
        rw [hr] at h
        simp at h
        obtain ⟨rfl, rfl⟩ := h
        obtain ⟨hmem, hlen, hnd⟩ := ih pr.1 pr.2 (by rw [hr])
        refine ⟨List.mem_cons_of_mem a hmem, by simp [← hlen], ?_⟩
        intro hnodup
        obtain ⟨hna, hnas⟩ := List.nodup_cons.mp hnodup
        intro hin
        cases List.mem_cons.mp hin with
        | inl heq => exact hna (heq ▸ hmem)
        | inr hin2 => exact (hnd hnas) hin2

/-! ## Claim theorems -/

/-- Claim C1, counterexample: with capacity 1 and an empty idle list, a
first `Get` creates and returns a new association while leaving the idle
list empty, and a second `Get` before any `Put` creates a second
association instead of failing with pool exhaustion. -/
theorem C1_counterexample :
    (poolGet { maxSize := 1, connections := [] } ⟨1, true, 0⟩ true).1 =
      .created ⟨1, true, 0⟩ ∧
    (poolGet { maxSize := 1, connections := [] } ⟨1, true, 0⟩ true).2 =
      { maxSize := 1, connections := [] } ∧
    (poolGet (poolGet { maxSize := 1, connections := [] } ⟨1, true, 0⟩ true).2
      ⟨2, true, 0⟩ true).1 = .created ⟨2, true, 0⟩ ∧
    (poolGet (poolGet { maxSize := 1, connections := [] } ⟨1, true, 0⟩ true).2
      ⟨2, true, 0⟩ true).1 ≠ .exhausted := by decide

/-- Claim C1 (amended): `Get` fails with pool exhaustion iff no idle
entry is connected and the idle list already holds `maxSize` entries;
since `Get` removes handed-out associations from the idle list, whenever
the idle list is below capacity and holds no connected entry, `Get`
creates and returns a fresh association — in particular a second Acquire
at capacity 1 before any Release creates a second association. -/
theorem C1_pool_capacity_amended (p : PoolState) (fresh : PoolAssoc) (connectOk : Bool) :
    ((poolGet p fresh connectOk).1 = .exhausted ↔
      (∀ c ∈ p.connections, c.connected = false) ∧
        p.maxSize ≤ p.connections.length) ∧
    ((∀ c ∈ p.connections, c.connected = false) → p.connections.length < p.maxSize →
      connectOk = true → (poolGet p fresh connectOk).1 = .created fresh) := by
  cases hgl : getLoop p.connections with
  | some pr =>
    constructor
    · simp [poolGet, hgl]
      intro hall
      exact absurd (getLoop_eq_none _ |>.mpr hall) (by simp [hgl])
    · intro hall _ _
      exact absurd (getLoop_eq_none _ |>.mpr hall) (by simp [hgl])
  | none =>
    by_cases hlt : p.connections.length < p.maxSize
    · constructor
      · cases connectOk <;> simp [poolGet, hgl, hlt]
      · intro _ _ hok
        subst hok
        simp [poolGet, hgl, hlt]
    · constructor
      · simp [poolGet, hgl, hlt]
        exact ⟨getLoop_eq_none _ |>.mp hgl, by omega⟩
      · intro _ hlt2
        exact absurd hlt2 hlt

/-- Claim C1 witness: the amended statement at a concrete pool of
capacity 1 with an empty idle list. -/
theorem C1_pool_capacity_amended_witness :
    (∀ c ∈ ({ maxSize := 1, connections := [] } : PoolState).connections,
        c.connected = false) ∧
    (poolGet { maxSize := 1, connections := [] } ⟨2, true, 0⟩ true).1 =
      .created ⟨2, true, 0⟩ :=
  ⟨by simp,
    (C1_pool_capacity_amended { maxSize := 1, connections := [] } ⟨2, true, 0⟩ true).2
      (by simp) (by decide) rfl⟩

/-- Claim C2: on the spec scenario stream RSP(0xFF00, A), RSP(0xFF00, B),
RSP(0x0000), `CFind` completes successfully after the first response with
zero result datasets — not with [A, B] — because `getCommandStatus`
reports 0x0000 for every response; the first response actually received
is the one whose spec-intended status is pending 0xFF00. -/
theorem C2_find_scenario_code_behavior :
    cFind true true findScenarioStream = .ok 0x0000 [] ∧
    receiveCommand findScenarioStream =
      some (findPendingRspA, pDataPDU findPendingRspB ++ pDataPDU findDoneRsp) ∧
    specCommandStatus findPendingRspA = some 0xFF00 ∧
    specCommandStatus findPendingRspB = some 0xFF00 ∧
    specCommandStatus findDoneRsp = some 0x0000 := by decide

/-- Claim C3: `CEcho` returns success on a C-ECHO-RSP whose status field
is 0x0110 (a failure status), because `getCommandStatus` reports 0x0000
for every response; so "success iff received status == 0x0000" fails in
the only-if direction. -/
theorem C3_echo_status_code_behavior :
    cEcho true true echoFailureStream = .ok ∧
    receiveCommand echoFailureStream = some (echoFailureRsp, []) ∧
    specCommandStatus echoFailureRsp = some 0x0110 ∧
    getCommandStatus echoFailureRsp = 0x0000 := by decide

/-- Claim C4, counterexample: a PDU header claiming a 10-byte body with
only 3 bytes available makes `receiveCommand` return, without any error,
a 10-byte buffer holding the 3 available bytes zero-padded — not a
protocol violation; `receiveAssociateResponse` likewise returns success. -/
theorem C4_counterexample :
    receiveCommand [0x04, 0x00, 0x00, 0x00, 0x00, 0x0A, 0x01, 0x02, 0x03] =
      some ([0x01, 0x02, 0x03, 0, 0, 0, 0, 0, 0, 0], []) ∧
    receiveCommand [0x04, 0x00, 0x00, 0x00, 0x00, 0x0A, 0x01, 0x02, 0x03] ≠ none ∧
    receiveAssociateResponse [0x02, 0x00, 0x00, 0x00, 0x00, 0x0A, 0x01, 0x02, 0x03] =
      .ok := by decide

/-- Claim C4 (amended): whenever the 6-byte header claims a body longer
than the bytes available before the next read would block, the receive
path does not read past the available data, but instead of raising a
protocol violation it silently returns, without error, a buffer of the
claimed length holding the available bytes followed by zero fill. -/
theorem C4_short_read_amended (header body : Bytes) (h6 : header.length = 6)
    (hne : body ≠ []) (hlt : body.length < pduLength header) :
    receiveCommand (header ++ body) =
      some (body ++ List.replicate (pduLength header - body.length) 0, []) ∧
    (body ++ List.replicate (pduLength header - body.length) 0).length =
      pduLength header := by
  have hAvailNe : (header ++ body).isEmpty = false := by
    cases header with
    | nil => simp at h6
    | cons a t => rfl
  have hBodyNe : body.isEmpty = false := by
    cases body with
    | nil => exact absurd rfl hne
    | cons a t => rfl
  have h1 : connRead (header ++ body) 6 = some (header, body) := by
    rw [connRead, hAvailNe]
    simp [List.take_left' h6, List.drop_left' h6]
  have hfill2 : header ++ List.replicate (6 - header.length) 0 = header := by
    rw [h6]
    simp
  have h2 : connRead body (pduLength header) = some (body, []) := by
    rw [connRead, hBodyNe]
    simp [List.take_of_length_le (Nat.le_of_lt hlt),
      List.drop_of_length_le (Nat.le_of_lt hlt)]
  constructor
  · rw [receiveCommand, h1]
    simp only [fillBuf, hfill2, h2]
  · simp
    omega

/-- Claim C4 witness: the amended statement at the concrete short stream. -/
theorem C4_short_read_amended_witness :
    ([0x04, 0x00, 0x00, 0x00, 0x00, 0x0A] : Bytes).length = 6 ∧
    receiveCommand ([0x04, 0x00, 0x00, 0x00, 0x00, 0x0A] ++ [0x01, 0x02, 0x03]) =
      some ([0x01, 0x02, 0x03] ++
        List.replicate (pduLength [0x04, 0x00, 0x00, 0x00, 0x00, 0x0A]
          - ([0x01, 0x02, 0x03] : Bytes).length) 0, []) :=
  ⟨rfl,
    (C4_short_read_amended [0x04, 0x00, 0x00, 0x00, 0x00, 0x0A] [0x01, 0x02, 0x03]
      rfl (by decide) (by decide)).1⟩

/-- Claim C5: an A-ASSOCIATE-AC that accepts zero presentation contexts
(its body's item list holds only an Application Context item, no item of
type 0x20) is accepted by `receiveAssociateResponse`, so `Connect`
succeeds and the association is treated as established — not rejected. -/
theorem C5_zero_contexts_code_behavior :
    receiveAssociateResponse acPDUNoContexts = .ok ∧
    connectAfterDial acPDUNoContexts = true ∧
    parseItems (acBodyNoContexts.drop 68) =
      some [(0x10, strBytes "1.2.840.10008.3.1.1.1")] := by decide

/-- Claim C6, counterexample: on a connected association, `Close` writes
the RELEASE-RQ and closes the transport in one step with no error and no
abort; it performs no read at all, so it cannot be awaiting a RELEASE-RP
(the peer here sends nothing, yet the close is a normal one). -/
theorem C6_counterexample :
    close ⟨true⟩ = (⟨false⟩, [.write releaseRQPDU, .closeTransport], none) ∧
    WireOp.write abortPDU ∉ (close ⟨true⟩).2.1 := by decide

/-- Claim C6 (amended): on a connected association, `Close` sends the
RELEASE-RQ and then immediately closes the transport without awaiting a
RELEASE-RP; a missing RELEASE-RP causes no abort and no error, and the
association ends disconnected. -/
theorem C6_release_amended (a : AssocState) (h : a.isConnected = true) :
    (close a).2.1 = [.write releaseRQPDU, .closeTransport] ∧
    (close a).2.2 = none ∧
    (close a).1.isConnected = false ∧
    WireOp.write abortPDU ∉ (close a).2.1 := by
  obtain ⟨c⟩ := a
  simp only at h
  subst h
  exact ⟨rfl, rfl, rfl, by decide⟩

/-- Claim C6 witness: the amended statement on a connected association. -/
theorem C6_release_amended_witness :
    (⟨true⟩ : AssocState).isConnected = true ∧ (close ⟨true⟩).2.2 = none :=
  ⟨rfl, (C6_release_amended ⟨true⟩ rfl).2.1⟩

/-- Claim C7: `Close` is idempotent — after one `Close`, a second `Close`
returns no error and performs no wire operation at all (no second write,
no duplicate release or abort PDU, no second transport close). -/
theorem C7_close_idempotent (a : AssocState) :
    close (close a).1 = ((close a).1, [], none) := by
  obtain ⟨c⟩ := a
  cases c <;> rfl

set_option maxRecDepth 100000 in
/-- Claim C8: the built A-ASSOCIATE-RQ contains the presentation-context
section verbatim, and parsing that section yields items whose context ids
are exactly 1, 3, 5, 7, 9, 11, 13 (strictly odd, increasing by 2), each
carrying exactly one Abstract Syntax sub-item and offering Implicit VR
Little Endian, Explicit VR Little Endian, Explicit VR Big Endian in that
order. -/
theorem C8_presentation_contexts (callingAET calledAET : String) (maxPDULength : Nat) :
    (∃ pre post, buildAssociateRequestPDU callingAET calledAET maxPDULength =
        pre ++ buildPresentationContexts ++ post) ∧
    ∃ items, parsePresentationContexts buildPresentationContexts = some items ∧
      items.map (·.id) = [1, 3, 5, 7, 9, 11, 13] ∧
      ∀ it ∈ items, it.id % 2 = 1 ∧ it.abstractUids.length = 1 ∧
        it.transferUids = transferSyntaxList.map strBytes := by
  constructor
  · refine ⟨[0x01, 0x00]
        ++ be32 (([0x01, 0x00] ++ [0x00, 0x01] ++ [0x00, 0x00]
          ++ padAET calledAET ++ padAET callingAET ++ List.replicate 32 0
          ++ buildApplicationContext ++ buildPresentationContexts
          ++ buildUserInformation maxPDULength).length - 6)
        ++ padAET calledAET ++ padAET callingAET ++ List.replicate 32 0
        ++ buildApplicationContext,
      buildUserInformation maxPDULength, ?_⟩
    simp [buildAssociateRequestPDU, List.take, List.drop, List.append_assoc]
  · exact ⟨_, rfl, by decide, by decide⟩

/-- Claim C9: if the idle list respects the capacity bound, it still does
after each pool operation (`Get`, `Put`, `removeIdleConnections`,
`Close`), and an association handed out by `Get` from the idle list is
removed from it, so it is never simultaneously idle and checked out. -/
theorem C9_pool_invariant (p : PoolState) (h : p.connections.length ≤ p.maxSize) :
    (∀ fresh connectOk, (poolGet p fresh connectOk).2.connections.length ≤ p.maxSize ∧
        (poolGet p fresh connectOk).2.maxSize = p.maxSize) ∧
    (∀ c, (poolPut p c).connections.length ≤ p.maxSize) ∧
    (∀ now maxIdleTime,
      (removeIdleConnections p now maxIdleTime).connections.length ≤ p.maxSize) ∧
    (poolClose p).connections.length ≤ p.maxSize ∧
    (∀ fresh connectOk c, p.connections.Nodup →
      (poolGet p fresh connectOk).1 = .reused c →
      c ∉ (poolGet p fresh connectOk).2.connections) := by
  refine ⟨?_, ?_, ?_, ?_, ?_⟩
  · intro fresh connectOk
    cases hgl : getLoop p.connections with
    | some pr =>
      obtain ⟨_, hlen, _⟩ := getLoop_spec _ pr.1 pr.2 (by rw [hgl])
      simp [poolGet, hgl]
      omega
    | none =>
      by_cases hlt : p.connections.length < p.maxSize
      · cases connectOk <;> simp [poolGet, hgl, hlt, h]
      · simp [poolGet, hgl, hlt, h]
  · intro c
    by_cases hc : c.connected
    · by_cases hfull : p.maxSize ≤ p.connections.length
      · simp [poolPut, hc, hfull, h]
      · simp [poolPut, hc, hfull]
        omega
    · simp [poolPut, hc, h]
  · intro now maxIdleTime
    exact le_trans (List.length_filter_le _ _) h
  · simp [poolClose]
  · intro fresh connectOk c hnodup hres
    cases hgl : getLoop p.connections with
    | some pr =>
      rw [poolGet, hgl] at hres ⊢
      simp at hres ⊢
      obtain ⟨_, _, hnd⟩ := getLoop_spec _ pr.1 pr.2 (by rw [hgl])
      exact hres ▸ hnd hnodup
    | none =>
      rw [poolGet, hgl] at hres
      by_cases hlt : p.connections.length < p.maxSize
      · cases connectOk <;> simp [hlt] at hres
      · simp [hlt] at hres

/-- Claim C9 witness: the capacity bound holds after a `Put` on a
concrete in-bound pool. -/
theorem C9_pool_invariant_witness :
    ({ maxSize := 1, connections := [] } : PoolState).connections.length ≤
      ({ maxSize := 1, connections := [] } : PoolState).maxSize ∧
    (poolPut { maxSize := 1, connections := [] } ⟨1, true, 0⟩).connections.length ≤
      ({ maxSize := 1, connections := [] } : PoolState).maxSize :=
  ⟨by decide,
    (C9_pool_invariant { maxSize := 1, connections := [] } (by decide)).2.1 ⟨1, true, 0⟩⟩

/-- Claim C10: on an association that is not connected, `CEcho` and
`CFind` do not fail on the unmet precondition: when the implicit
`Connect` fails they return its error, and when it succeeds they behave
exactly as on an already-connected association. -/
theorem C10_implicit_connect (avail : Bytes) (b : Bool) :
    cEcho false false avail = .connectFailed ∧
    cFind false false avail = .connectFailed ∧
    cEcho false true avail = cEcho true b avail ∧
    cFind false true avail = cFind true b avail := by
  refine ⟨rfl, rfl, ?_, ?_⟩ <;> simp [cEcho, cFind]

end RisDicom
